import Mathlib

/-!
Shallow embedding of the sato monitoring engine
(scripts/sato: status_tracker.py, health_checker.py, notifications.py,
sato.py self-healing logic, settings.py), together with proofs of the
specification's testable properties.

Modelling conventions:
* Python dicts become association lists (`List (String × α)`) with
  first-match lookup and in-place update (`setKey`), matching dict
  semantics (unique keys).
* `collections.deque(maxlen = n)` becomes a list on which every append
  keeps only the last `n` elements (`pushLimited`).
* Wall-clock timestamps (`time.time()`) are passed explicitly.  The
  status tracker uses `ℚ` (it divides durations); the notification and
  self-healing state machines use integral seconds (`ℤ`), which is all
  their comparisons need.
* Network / process effects are factored out: each checker takes the
  outcome of its underlying probe as an explicit argument whose
  constructors correspond one-to-one to the `try/except` branches of
  the Python code.  Totality of the Lean functions expresses that every
  branch returns a `CheckResult` instead of propagating an exception.
-/

namespace Sato

/-- Keep the last `n` elements of a list (the contents of a
`deque(..., maxlen = n)` built from that list). -/
def takeLast (n : Nat) (xs : List α) : List α :=
  xs.drop (xs.length - n)

/-- Append to a bounded deque of capacity `n`: the oldest element is
evicted when full. -/
def pushLimited (n : Nat) (xs : List α) (x : α) : List α :=
  takeLast n (xs ++ [x])

/-- First-match lookup in an association list (Python `dict.get`). -/
def lookupKey (m : List (String × α)) (k : String) : Option α :=
  match m with
  | [] => none
  | (k₁, v₁) :: rest => if k₁ = k then some v₁ else lookupKey rest k

/-- Update the binding of `k` in place, or append it (Python
`dict.__setitem__`). -/
def setKey (m : List (String × α)) (k : String) (v : α) : List (String × α) :=
  match m with
  | [] => [(k, v)]
  | (k₁, v₁) :: rest => if k₁ = k then (k, v) :: rest else (k₁, v₁) :: setKey rest k v

/-- Decidable list-prefix test (used for string matching; kept
first-order so that the kernel can evaluate it). -/
def listLeads [DecidableEq α] : List α → List α → Bool
  | [], _ => true
  | _ :: _, [] => false
  | a :: as, b :: bs => a = b && listLeads as bs

/-- Whether `pat` is a prefix of `s` (Python `str.startswith`). -/
def strLeads (s pat : String) : Bool :=
  listLeads pat.toList s.toList

/-- Whether `needle` occurs as a substring of `hay` (Python `in` on
strings). -/
def strContains (hay needle : String) : Bool :=
  hay.toList.tails.any (listLeads needle.toList)

/-- Stable insertion of an event into a timestamp-sorted list: the
inserted element goes before strictly later elements and before no
earlier-or-equal ones, so sorting with it is stable, like Python
`sorted(key = timestamp)`. -/
def insertTs (ts : α → ℚ) (e : α) : List α → List α
  | [] => [e]
  | x :: xs => if ts e ≤ ts x then e :: x :: xs else x :: insertTs ts e xs

/-- Stable sort by timestamp (Python `sorted(events, key = timestamp)`). -/
def sortByTs (ts : α → ℚ) : List α → List α
  | [] => []
  | x :: xs => insertTs ts x (sortByTs ts xs)

/-! ## StatusTracker (core/status_tracker.py) -/

/-- One recorded check outcome (`StatusEvent` dataclass). -/
structure StatusEvent where
  timestamp : ℚ
  server_name : String
  status : String
  response_time : ℤ
  message : String
deriving Repr, DecidableEq

/-- Derived per-target aggregate (`UptimeStats` dataclass). -/
structure UptimeStats where
  server_name : String
  total_checks : ℕ
  successful_checks : ℕ
  failed_checks : ℕ
  average_response_time : ℚ
  uptime_percentage : ℚ
  last_check : ℚ
  last_status : String
deriving Repr, DecidableEq

/-- In-memory state of a `StatusTracker`.  `recent_events` models the
`deque(maxlen = 1000)`, each entry of `response_times` a
`deque(maxlen = 100)`. -/
structure StatusTracker where
  retention_days : ℕ
  recent_events : List StatusEvent
  response_times : List (String × List (ℚ × ℤ))
  uptime_stats : List (String × UptimeStats)
deriving Repr, DecidableEq

/-- A tracker as built by `StatusTracker.__init__` with no history file
present. -/
def emptyTracker : StatusTracker :=
  { retention_days := 30, recent_events := [], response_times := [], uptime_stats := [] }

/-- Fresh `UptimeStats` entry created on first sight of a server
(`update_uptime_stats`, lines 104–114). -/
def freshStats (server_name : String) (status : String) (timestamp : ℚ) : UptimeStats :=
  { server_name := server_name, total_checks := 0, successful_checks := 0,
    failed_checks := 0, average_response_time := 0, uptime_percentage := 0,
    last_check := timestamp, last_status := status }

/-- The Python `update_uptime_stats` body, acting on one stats record:
increment totals, bump exactly one of the success/failure counters,
recompute the percentage, and fold the response time into the moving
average on success. -/
def updateStats (s : UptimeStats) (status : String) (response_time : ℤ)
    (timestamp : ℚ) : UptimeStats :=
  let s₁ := { s with
    total_checks := s.total_checks + 1,
    last_check := timestamp,
    last_status := status }
  let s₂ :=
    if status = "operational" then
      { s₁ with successful_checks := s₁.successful_checks + 1 }
    else
      { s₁ with failed_checks := s₁.failed_checks + 1 }
  let s₃ := { s₂ with
    uptime_percentage :=
      ((s₂.successful_checks : ℚ) / (s₂.total_checks : ℚ)) * 100 }
  if status = "operational" ∧ 0 < response_time then
    { s₃ with
      average_response_time :=
        (s₃.average_response_time * ((s₃.successful_checks : ℚ) - 1)
          + (response_time : ℚ)) / (s₃.successful_checks : ℚ) }
  else s₃

/-- `StatusTracker.update_uptime_stats`. -/
def update_uptime_stats (st : StatusTracker) (server_name status : String)
    (response_time : ℤ) (timestamp : ℚ) : StatusTracker :=
  let s₀ := (lookupKey st.uptime_stats server_name).getD
    (freshStats server_name status timestamp)
  { st with
    uptime_stats :=
      setKey st.uptime_stats server_name (updateStats s₀ status response_time timestamp) }

/-- `StatusTracker.record_status` (the periodic `save_history` trigger
is modelled separately; it does not change the in-memory statistics). -/
def record_status (st : StatusTracker) (server_name status : String)
    (response_time : ℤ) (message : String) (timestamp : ℚ) : StatusTracker :=
  let event : StatusEvent :=
    { timestamp := timestamp, server_name := server_name, status := status,
      response_time := response_time, message := message }
  let st₁ := { st with recent_events := pushLimited 1000 st.recent_events event }
  let st₂ :=
    if 0 < response_time then
      { st₁ with
        response_times :=
          setKey st₁.response_times server_name
            (pushLimited 100 ((lookupKey st₁.response_times server_name).getD [])
              (timestamp, response_time)) }
    else st₁
  update_uptime_stats st₂ server_name status response_time timestamp

/-- `StatusTracker.get_uptime_stats`. -/
def get_uptime_stats (st : StatusTracker) (server_name : String) : Option UptimeStats :=
  lookupKey st.uptime_stats server_name

/-- Collapse a timestamp-sorted event list to its status-transition
points (`get_status_changes`, lines 199–208). -/
def collapseChanges : Option String → List StatusEvent → List StatusEvent
  | _, [] => []
  | last, e :: rest =>
    if last = some e.status then collapseChanges last rest
    else e :: collapseChanges (some e.status) rest

/-- `StatusTracker.get_status_changes` (query time passed explicitly). -/
def get_status_changes (st : StatusTracker) (server_name : String)
    (hours : ℕ) (now : ℚ) : List StatusEvent :=
  let cutoff := now - (hours : ℚ) * 3600
  let events := st.recent_events.filter
    (fun e => decide (e.server_name = server_name) && decide (cutoff ≤ e.timestamp))
  collapseChanges none (sortByTs StatusEvent.timestamp events)

/-- The transition walk of `calculate_downtime` (lines 222–233):
accumulate minutes between a down/degraded transition and the next
operational one; on exhaustion, a still-open downtime period counts up
to `now`. -/
def downtimeWalk (now : ℚ) : List StatusEvent → Option ℚ → ℚ → ℚ
  | [], down_start, acc =>
    match down_start with
    | some ds => acc + (now - ds) / 60
    | none => acc
  | e :: rest, down_start, acc =>
    if (e.status = "down" ∨ e.status = "degraded") ∧ down_start = none then
      downtimeWalk now rest (some e.timestamp) acc
    else if e.status = "operational" ∧ down_start ≠ none then
      downtimeWalk now rest none (acc + (e.timestamp - down_start.getD 0) / 60)
    else
      downtimeWalk now rest down_start acc

/-- `StatusTracker.calculate_downtime`. -/
def calculate_downtime (st : StatusTracker) (server_name : String)
    (hours : ℕ) (now : ℚ) : ℚ :=
  let status_changes := get_status_changes st server_name hours now
  if status_changes = [] then 0
  else downtimeWalk now status_changes none 0

/-- `StatusTracker.cleanup_old_events`: drop events and response-time
entries older than the retention window; rebuilding the deques keeps
their capacity bounds. -/
def cleanup_old_events (st : StatusTracker) (now : ℚ) : StatusTracker :=
  let cutoff := now - (st.retention_days : ℚ) * 24 * 3600
  { st with
    recent_events :=
      takeLast 1000 (st.recent_events.filter (fun e => decide (cutoff ≤ e.timestamp))),
    response_times :=
      st.response_times.map (fun nt =>
        (nt.1, takeLast 100 (nt.2.filter (fun t => decide (cutoff ≤ t.1))))) }

/-- Shape of the persisted history file (`save_history` JSON document). -/
structure PersistedData where
  events : List StatusEvent
  uptime_stats : List (String × UptimeStats)
  response_times : List (String × List (ℚ × ℤ))
deriving Repr, DecidableEq

/-- `StatusTracker.save_history`: clean old events, then snapshot
events, stats and response times.  Returns the post-cleanup state and
the written document. -/
def save_history (st : StatusTracker) (now : ℚ) : StatusTracker × PersistedData :=
  let st₁ := cleanup_old_events st now
  (st₁,
    { events := st₁.recent_events,
      uptime_stats := st₁.uptime_stats,
      response_times := st₁.response_times })

/-- `StatusTracker.load_history` applied to a successfully parsed
document: events are appended one by one to the bounded deque, stats
entries are inserted per key, response-time lists are rebuilt as
capacity-100 deques. -/
def load_history (st : StatusTracker) (d : PersistedData) : StatusTracker :=
  let st₁ := { st with
    recent_events := d.events.foldl (pushLimited 1000) st.recent_events }
  let st₂ := { st₁ with
    uptime_stats :=
      d.uptime_stats.foldl
        (fun m (kv : String × UptimeStats) => setKey m kv.1 kv.2)
        st₁.uptime_stats }
  { st₂ with
    response_times :=
      d.response_times.foldl
        (fun m (kv : String × List (ℚ × ℤ)) => setKey m kv.1 (takeLast 100 kv.2))
        st₂.response_times }

/-! ## Server configuration (core/settings.py) -/

/-- Default expected status codes installed by
`ServerConfig.__post_init__` when none are configured. -/
def defaultExpectedCodes : List ℤ :=
  [200, 201, 202, 204, 301, 302, 304, 401]

/-- Configuration of one monitored target (`ServerConfig` dataclass,
restricted to the fields the checker and self-healing logic read;
dynamically injected optional attributes become `Option` fields). -/
structure ServerConfig where
  name : String
  host : String
  type : String := "server"
  port : Option ℤ := none
  check_type : String := "http"
  expected_status_codes : List ℤ := defaultExpectedCodes
  expected_content : Option String := none
  custom_command : Option String := none
  tcp_send_data : Option String := none
  tcp_expect_data : Option String := none
deriving Repr, DecidableEq

/-- The `__post_init__` defaulting of `expected_status_codes`: `None`
becomes the default list. -/
def serverConfigPostInit (codes : Option (List ℤ)) (cfg : ServerConfig) : ServerConfig :=
  { cfg with expected_status_codes := codes.getD defaultExpectedCodes }

/-! ## HealthChecker (core/health_checker.py) -/

/-- Result of one probe (`CheckResult` class; the `details` dict is
omitted — no claim reads it). -/
structure CheckResult where
  is_healthy : Bool
  response_time : ℤ
  message : String
  status_code : Option ℤ := none
deriving Repr, DecidableEq

/-- Outcome of the underlying HTTP transport, one constructor per
`try/except` branch of `check_http`: a reply from `urlopen` (with the
raw body and whether `response.read(200)` succeeds), an
`urllib.error.HTTPError` carrying a status code, a `URLError`/socket
error already classified by the code's message tests, or any other
exception. -/
inductive HttpOutcome
  | reply (code : ℤ) (body : String) (readOk : Bool)
  | httpError (code : ℤ)
  | urlTimeout
  | urlConnection
  | urlDns
  | urlOther
  | otherExc
deriving Repr, DecidableEq

/-- Whether a content check is required (`expected_content` attribute
present and truthy, i.e. a non-empty string). -/
def needContentCheck (cfg : ServerConfig) : Bool :=
  decide ((cfg.expected_content.getD "") ≠ "")

/-- `HealthChecker.check_http`, as a function of the transport outcome
(`elapsedMs` stands for the measured elapsed milliseconds). -/
def check_http (cfg : ServerConfig) (out : HttpOutcome) (elapsedMs : ℤ) : CheckResult :=
  match out with
  | .reply code body readOk =>
    let healthy₀ := decide (code ∈ cfg.expected_status_codes)
    if needContentCheck cfg then
      if readOk then
        let capped := String.mk (body.toList.take 200)
        if strContains capped (cfg.expected_content.getD "") then
          { is_healthy := healthy₀, response_time := elapsedMs,
            message := "HTTP " ++ toString code ++ " ✓", status_code := some code }
        else
          { is_healthy := false, response_time := elapsedMs,
            message := "Content missing (HTTP " ++ toString code ++ ")",
            status_code := some code }
      else
        { is_healthy := healthy₀, response_time := elapsedMs,
          message := "HTTP " ++ toString code ++ " (content unreadable)",
          status_code := some code }
    else
      { is_healthy := healthy₀, response_time := elapsedMs,
        message := "HTTP " ++ toString code, status_code := some code }
  | .httpError code =>
    { is_healthy := decide (code ∈ cfg.expected_status_codes),
      response_time := elapsedMs, message := "HTTP " ++ toString code,
      status_code := some code }
  | .urlTimeout =>
    { is_healthy := false, response_time := elapsedMs, message := "Timeout" }
  | .urlConnection =>
    { is_healthy := false, response_time := elapsedMs, message := "Connection failed" }
  | .urlDns =>
    { is_healthy := false, response_time := elapsedMs, message := "DNS failed" }
  | .urlOther =>
    { is_healthy := false, response_time := elapsedMs, message := "Network error" }
  | .otherExc =>
    { is_healthy := false, response_time := elapsedMs, message := "Check failed" }

/-- Outcome of the ping subprocess: an exit with captured output, a
`subprocess.TimeoutExpired`, or any other exception. -/
inductive PingOutcome
  | exit (returncode : ℤ) (stdout stderr : String)
  | timeoutExpired
  | exc (msg : String)
deriving Repr, DecidableEq

/-- `HealthChecker.check_ping` as a function of the subprocess outcome
(`pingMs` stands for the parsed or measured round-trip time). -/
def check_ping (out : PingOutcome) (timeout pingMs : ℤ) : CheckResult :=
  match out with
  | .exit returncode _ stderr =>
    if returncode = 0 then
      { is_healthy := true, response_time := pingMs,
        message := "Ping successful (" ++ toString pingMs ++ "ms)" }
    else
      { is_healthy := false, response_time := pingMs,
        message := "Ping failed: " ++ (if stderr = "" then "Host unreachable" else stderr) }
  | .timeoutExpired =>
    { is_healthy := false, response_time := timeout * 1000,
      message := "Ping timeout after " ++ toString timeout ++ "s" }
  | .exc msg =>
    { is_healthy := false, response_time := pingMs,
      message := "Ping check failed: " ++ msg }

/-- Outcome of the TCP connect: `connect_ex` returning an error code
(with the optional payload-exchange reply, `none` when the exchange
raised and was ignored), a socket timeout, or any other exception. -/
inductive TcpOutcome
  | connectRes (errorCode : ℤ) (received : Option String)
  | sockTimeout
  | exc (msg : String)
deriving Repr, DecidableEq

/-- `HealthChecker.check_tcp` as a function of the socket outcome. -/
def check_tcp (cfg : ServerConfig) (out : TcpOutcome) (timeout elapsedMs : ℤ) : CheckResult :=
  let host := cfg.host
  let port := toString ((cfg.port).getD 80)
  match out with
  | .connectRes errorCode received =>
    if errorCode = 0 then
      if (cfg.tcp_send_data.getD "") ≠ "" then
        match cfg.tcp_expect_data, received with
        | some expect, some recv =>
          if strContains recv expect then
            { is_healthy := true, response_time := elapsedMs,
              message := "TCP connection successful to " ++ host ++ ":" ++ port }
          else
            { is_healthy := false, response_time := elapsedMs,
              message := "TCP data mismatch on " ++ host ++ ":" ++ port }
        | _, _ =>
          { is_healthy := true, response_time := elapsedMs,
            message := "TCP connection successful to " ++ host ++ ":" ++ port }
      else
        { is_healthy := true, response_time := elapsedMs,
          message := "TCP connection successful to " ++ host ++ ":" ++ port }
    else
      { is_healthy := false, response_time := elapsedMs,
        message := "TCP connection failed to " ++ host ++ ":" ++ port
          ++ " (error " ++ toString errorCode ++ ")" }
  | .sockTimeout =>
    { is_healthy := false, response_time := timeout * 1000,
      message := "TCP connection timeout to " ++ host ++ ":" ++ port }
  | .exc msg =>
    { is_healthy := false, response_time := elapsedMs,
      message := "TCP check failed: " ++ msg }

/-- Outcome of the custom command: an exit with captured output, a
`subprocess.TimeoutExpired`, or any other exception. -/
inductive CustomOutcome
  | exit (returncode : ℤ) (stdout stderr : String)
  | timeoutExpired
  | exc (msg : String)
deriving Repr, DecidableEq

/-- `HealthChecker.check_custom` as a function of the subprocess
outcome. -/
def check_custom (cfg : ServerConfig) (out : CustomOutcome) (timeout elapsedMs : ℤ) : CheckResult :=
  if (cfg.custom_command.getD "") = "" then
    { is_healthy := false, response_time := 0, message := "No custom command specified" }
  else
    match out with
    | .exit returncode stdout stderr =>
      if returncode = 0 then
        { is_healthy := true, response_time := elapsedMs,
          message := "Custom check passed"
            ++ (if stdout = "" then "" else ": " ++ String.mk (stdout.toList.take 100)) }
      else
        { is_healthy := false, response_time := elapsedMs,
          message := "Custom check failed (exit " ++ toString returncode ++ ")"
            ++ (if stderr = "" then "" else ": " ++ String.mk (stderr.toList.take 100)) }
    | .timeoutExpired =>
      { is_healthy := false, response_time := timeout * 1000,
        message := "Custom check timeout after " ++ toString timeout ++ "s" }
    | .exc msg =>
      { is_healthy := false, response_time := elapsedMs,
        message := "Custom check error: " ++ msg }

/-- The world a single `check_server` call can observe: one outcome per
protocol (only the one selected by the config's check type is read). -/
structure ProbeEnv where
  http : HttpOutcome
  ping : PingOutcome
  tcp : TcpOutcome
  custom : CustomOutcome
  timeout : ℤ
  elapsedMs : ℤ
deriving Repr, DecidableEq

/-- `HealthChecker.check_server`: dispatch on the configured check
type; unknown types yield an unhealthy result. -/
def check_server (cfg : ServerConfig) (env : ProbeEnv) : CheckResult :=
  if cfg.check_type = "http" then check_http cfg env.http env.elapsedMs
  else if cfg.check_type = "ping" then check_ping env.ping env.timeout env.elapsedMs
  else if cfg.check_type = "tcp" then check_tcp cfg env.tcp env.timeout env.elapsedMs
  else if cfg.check_type = "custom" then check_custom cfg env.custom env.timeout env.elapsedMs
  else
    { is_healthy := false, response_time := 0,
      message := "Unknown check type: " ++ cfg.check_type }

/-! ## NotificationManager smart rules (core/notifications.py) -/

/-- Mutable per-manager tracking state read by `_should_notify_smart`
(timestamps as integral seconds).  `status_change_history` stores
(status, timestamp) pairs, mirroring the Python dict entries. -/
structure NotifState where
  last_meaningful_status : List (String × String)
  status_change_history : List (String × List (String × ℤ))
  last_notification_time : List (String × ℤ)
  cooldown_period : ℤ
deriving Repr, DecidableEq

/-- Manager state right after construction with default settings
(`alert_cooldown_seconds = 300`). -/
def emptyNotifState : NotifState :=
  { last_meaningful_status := [], status_change_history := [],
    last_notification_time := [], cooldown_period := 300 }

/-- `NotificationManager._is_flapping`: prune the target's
status-change history to the trailing 10 minutes (storing the pruned
list back) and report flapping when more than 3 changes remain. -/
def is_flapping (st : NotifState) (server_name : String) (now : ℤ) :
    NotifState × Bool :=
  let history := (lookupKey st.status_change_history server_name).getD []
  let pruned := history.filter (fun c => decide (now - c.2 < 600))
  ({ st with status_change_history := setKey st.status_change_history server_name pruned },
    decide (3 < pruned.length))

/-- `NotificationManager._is_in_cooldown`. -/
def is_in_cooldown (st : NotifState) (server_name : String) (now : ℤ) : Bool :=
  decide (now - (lookupKey st.last_notification_time server_name).getD 0
    < st.cooldown_period)

/-- `NotificationManager._record_status_change`. -/
def record_status_change (st : NotifState) (server_name newStatus : String)
    (now : ℤ) : NotifState :=
  { st with
    status_change_history :=
      setKey st.status_change_history server_name
        (((lookupKey st.status_change_history server_name).getD []) ++ [(newStatus, now)]),
    last_notification_time := setKey st.last_notification_time server_name now }

/-- The return sites of `_should_notify_smart`, in source order: the
five veto rules and acceptance.  A notification is produced exactly for
`accept`. -/
inductive NotifyDecision
  | vetoSameStatus
  | vetoChecking
  | vetoMeaningful
  | vetoFlap
  | vetoCooldown
  | accept
deriving Repr, DecidableEq

/-- `NotificationManager._should_notify_smart`: the smart-rule pipeline,
returning the updated tracking state and which branch decided. -/
def should_notify_smart (st : NotifState) (server_name oldStatus newStatus : String)
    (now : ℤ) : NotifState × NotifyDecision :=
  if oldStatus = newStatus then (st, .vetoSameStatus)
  else if oldStatus = "checking" ∨ newStatus = "checking" then (st, .vetoChecking)
  else if lookupKey st.last_meaningful_status server_name = some newStatus then
    (st, .vetoMeaningful)
  else
    let fl := is_flapping st server_name now
    if fl.2 then (fl.1, .vetoFlap)
    else if is_in_cooldown fl.1 server_name now then (fl.1, .vetoCooldown)
    else
      let st₁ := { fl.1 with
        last_meaningful_status := setKey fl.1.last_meaningful_status server_name newStatus }
      (record_status_change st₁ server_name newStatus now, .accept)

/-- Feed a sequence of status-change submissions
(server, old status, new status, time) through the smart-rule
pipeline, collecting each decision. -/
def runChanges (st : NotifState) :
    List (String × String × String × ℤ) → NotifState × List NotifyDecision
  | [] => (st, [])
  | c :: rest =>
    let r := should_notify_smart st c.1 c.2.1 c.2.2.1 c.2.2.2
    let rr := runChanges r.1 rest
    (rr.1, r.2 :: rr.2)

/-- Five alternating status changes for one target starting at `t`,
spaced 120 s apart (all within a 10-minute window). -/
def alternatingChanges (server_name : String) (t : ℤ) :
    List (String × String × String × ℤ) :=
  [(server_name, "operational", "down", t),
   (server_name, "down", "operational", t + 120),
   (server_name, "operational", "down", t + 240),
   (server_name, "down", "operational", t + 360),
   (server_name, "operational", "down", t + 480)]

/-! ## Self-healing controller (sato.py) -/

/-- The controller state read by `should_attempt_restart` /
`handle_service_failure` (timestamps as integral seconds). -/
structure HealState where
  auto_restart_enabled : Bool
  maintenance_mode : Bool
  retry_counts : List (String × ℕ)
  failure_timestamps : List (String × List ℤ)
deriving Repr, DecidableEq

/-- `is_external_service` (sato.py lines 1274–1288): external means an
explicit URL scheme or a non-local host. -/
def is_external_service (server : ServerConfig) : Bool :=
  if strLeads server.host "http://" || strLeads server.host "https://" then true
  else if !(strLeads server.host "localhost" || strLeads server.host "127.0.0.1"
      || strLeads server.host "0.0.0.0") then true
  else false

/-- `should_attempt_restart` (sato.py lines 1180–1208), with the five
veto branches in source order. -/
def should_attempt_restart (st : HealState) (server : ServerConfig) : Bool :=
  if !st.auto_restart_enabled || st.maintenance_mode then false
  else if is_external_service server then false
  else if 5 < ((lookupKey st.failure_timestamps server.name).getD []).length then false
  else if server.type = "external_api" ∨ server.type = "third_party" then false
  else if 3 ≤ (lookupKey st.retry_counts server.name).getD 0 then false
  else true

/-- `handle_service_failure` (sato.py lines 1153–1178): record the
failure, prune the target's failure timestamps to the trailing hour,
then consult `should_attempt_restart`; returns the updated state and
whether an auto-restart is attempted. -/
def handle_service_failure (st : HealState) (server : ServerConfig) (now : ℤ) :
    HealState × Bool :=
  let st₁ :=
    if (lookupKey st.retry_counts server.name).isNone then
      { st with
        retry_counts := setKey st.retry_counts server.name 0,
        failure_timestamps := setKey st.failure_timestamps server.name [] }
    else st
  let recorded := ((lookupKey st₁.failure_timestamps server.name).getD []) ++ [now]
  let pruned := recorded.filter (fun ts => decide (now - ts < 3600))
  let st₂ := { st₁ with
    failure_timestamps := setKey st₁.failure_timestamps server.name pruned }
  (st₂, should_attempt_restart st₂ server)

/-- The known check types dispatched by `check_server`. -/
def knownCheckTypes : List String := ["http", "ping", "tcp", "custom"]

/-- A probe outcome that constitutes a failure of the underlying probe
for the configured check type: a transport-level failure (timeout,
connection refused, DNS failure, other network error, generic
exception), a non-matching HTTP status, a non-zero exit / connect
code, or a subprocess timeout. -/
def failingProbe (cfg : ServerConfig) (env : ProbeEnv) : Prop :=
  if cfg.check_type = "http" then
    match env.http with
    | .reply code _ _ => code ∉ cfg.expected_status_codes
    | .httpError code => code ∉ cfg.expected_status_codes
    | _ => True
  else if cfg.check_type = "ping" then
    match env.ping with
    | .exit returncode _ _ => returncode ≠ 0
    | _ => True
  else if cfg.check_type = "tcp" then
    match env.tcp with
    | .connectRes errorCode _ => errorCode ≠ 0
    | _ => True
  else if cfg.check_type = "custom" then
    (cfg.custom_command.getD "") ≠ "" ∧
      match env.custom with
      | .exit returncode _ _ => returncode ≠ 0
      | _ => True
  else False

/-- The fixed message categories a failing check reports (each entry
is the literal prefix of the corresponding return site's message). -/
def failureCategories : List String :=
  ["Timeout", "Connection failed", "DNS failed", "Network error", "Check failed",
   "HTTP ", "Content missing (HTTP ",
   "Ping failed: ", "Ping timeout after ", "Ping check failed: ",
   "TCP connection failed to ", "TCP connection timeout to ", "TCP check failed: ",
   "Custom check failed (exit ", "Custom check timeout after ", "Custom check error: "]

/-- Whether a message is drawn from the failure categories. -/
def categorizedMessage (msg : String) : Bool :=
  failureCategories.any (fun c => strLeads msg c)

/-- The synthetic event sequence of the downtime scenario:
operational at `t0`, down at `t0 + 60` s, operational again at
`t0 + 300` s. -/
def downtimeEvents (t0 : ℚ) : List StatusEvent :=
  [{ timestamp := t0, server_name := "api", status := "operational",
     response_time := 10, message := "" },
   { timestamp := t0 + 60, server_name := "api", status := "down",
     response_time := 0, message := "" },
   { timestamp := t0 + 300, server_name := "api", status := "operational",
     response_time := 12, message := "" }]

/-- A tracker holding exactly the downtime-scenario events. -/
def downtimeTracker (t0 : ℚ) : StatusTracker :=
  { retention_days := 30, recent_events := downtimeEvents t0,
    response_times := [], uptime_stats := [] }

/-! ## Concrete sample states used to instantiate the theorems -/

/-- A sample stats record: 3 checks, 2 successes. -/
def sampleStats : UptimeStats :=
  { server_name := "api", total_checks := 3, successful_checks := 2,
    failed_checks := 1, average_response_time := 10,
    uptime_percentage := 200 / 3, last_check := 50, last_status := "operational" }

/-- A sample tracker holding `sampleStats` for target "api". -/
def sampleTracker : StatusTracker :=
  { retention_days := 30, recent_events := [], response_times := [],
    uptime_stats := [("api", sampleStats)] }

/-- A sample self-healing state: restarts enabled, four failures
already recorded for "api" in the trailing hour, no restart attempts. -/
def sampleHealState : HealState :=
  { auto_restart_enabled := true, maintenance_mode := false,
    retry_counts := [("api", 0)], failure_timestamps := [("api", [1000, 2000, 3000, 3500])] }

/-- A sample local target eligible for auto-restart. -/
def sampleLocalServer : ServerConfig :=
  { name := "api", host := "localhost:8080", type := "server" }

/-! ## Basic lemmas about the container helpers -/

theorem lookupKey_setKey_self (m : List (String × α)) (k : String) (v : α) :
    lookupKey (setKey m k v) k = some v := by
  induction m with
  | nil => simp [setKey, lookupKey]
  | cons hd tl ih =>
    by_cases h : hd.1 = k
    · simp [setKey, lookupKey, h]
    · simp [setKey, lookupKey, h, ih]

theorem lookupKey_setKey_ne (m : List (String × α)) (k k' : String) (v : α)
    (h : k' ≠ k) : lookupKey (setKey m k v) k' = lookupKey m k' := by
  induction m with
  | nil =>
    simp only [setKey, lookupKey]
    rw [if_neg (fun e => h e.symm)]
  | cons hd tl ih =>
    by_cases hh : hd.1 = k
    · simp only [setKey, if_pos hh, lookupKey]
      rw [if_neg (fun e => h e.symm), if_neg (fun e => h (e.symm.trans hh))]
    · simp only [setKey, if_neg hh, lookupKey]
      by_cases hk : hd.1 = k'
      · rw [if_pos hk, if_pos hk]
      · rw [if_neg hk, if_neg hk, ih]

theorem lookupKey_eq_none_of_not_mem (m : List (String × α)) (k : String)
    (h : k ∉ m.map Prod.fst) : lookupKey m k = none := by
  induction m with
  | nil => rfl
  | cons hd tl ih =>
    simp only [List.map_cons, List.mem_cons] at h
    push_neg at h
    simp only [lookupKey]
    rw [if_neg (fun e => h.1 e.symm), ih h.2]

theorem lookupKey_foldl_setKey (m : List (String × α)) (acc : List (String × α))
    (k : String) (hnd : (m.map Prod.fst).Nodup) :
    lookupKey (m.foldl (fun a kv => setKey a kv.1 kv.2) acc) k =
      (lookupKey m k).or (lookupKey acc k) := by
  induction m generalizing acc with
  | nil => simp [lookupKey]
  | cons hd tl ih =>
    simp only [List.map_cons, List.nodup_cons] at hnd
    simp only [List.foldl_cons]
    rw [ih _ hnd.2]
    by_cases h : hd.1 = k
    · subst h
      rw [lookupKey_eq_none_of_not_mem tl _ hnd.1]
      simp [lookupKey, lookupKey_setKey_self]
    · rw [lookupKey_setKey_ne _ _ _ _ (fun hh => h hh.symm)]
      simp [lookupKey, h]

theorem length_takeLast_le (n : Nat) (xs : List α) : (takeLast n xs).length ≤ n := by
  simp only [takeLast, List.length_drop]
  omega

theorem takeLast_of_length_le (n : Nat) (xs : List α) (h : xs.length ≤ n) :
    takeLast n xs = xs := by
  simp [takeLast, Nat.sub_eq_zero_of_le h]

theorem takeLast_idem (n : Nat) (xs : List α) :
    takeLast n (takeLast n xs) = takeLast n xs :=
  takeLast_of_length_le _ _ (length_takeLast_le _ _)

theorem mem_of_mem_takeLast {n : Nat} {xs : List α} {a : α}
    (h : a ∈ takeLast n xs) : a ∈ xs :=
  List.drop_subset _ _ h

theorem filter_takeLast_filter (n : Nat) (p : α → Bool) (xs : List α) :
    (takeLast n (xs.filter p)).filter p = takeLast n (xs.filter p) := by
  apply List.filter_eq_self.mpr
  intro a ha
  exact List.of_mem_filter (mem_of_mem_takeLast ha)

/-! ## Uptime statistics invariants -/

/-- Counter consistency of one stats record. -/
def StatsCountInv (s : UptimeStats) : Prop :=
  s.successful_checks + s.failed_checks = s.total_checks

/-- The percentage field agrees with the counters. -/
def StatsPctInv (s : UptimeStats) : Prop :=
  s.uptime_percentage =
    if s.total_checks = 0 then 0
    else 100 * (s.successful_checks : ℚ) / (s.total_checks : ℚ)

/-- Both stats invariants, for every stats record held by a tracker. -/
def TrackerInv (st : StatusTracker) : Prop :=
  ∀ name s, lookupKey st.uptime_stats name = some s → StatsCountInv s ∧ StatsPctInv s

theorem statsInv_fresh (n st : String) (ts : ℚ) :
    StatsCountInv (freshStats n st ts) ∧ StatsPctInv (freshStats n st ts) := by
  constructor <;> simp [StatsCountInv, StatsPctInv, freshStats]

theorem trackerInv_empty : TrackerInv emptyTracker := by
  intro name s h
  simp [emptyTracker, lookupKey] at h

theorem updateStats_total (s : UptimeStats) (status : String) (rt : ℤ) (ts : ℚ) :
    (updateStats s status rt ts).total_checks = s.total_checks + 1 := by
  by_cases h : status = "operational" <;> by_cases h2 : 0 < rt <;>
    simp [updateStats, h, h2]

theorem updateStats_counts (s : UptimeStats) (status : String) (rt : ℤ) (ts : ℚ) :
    (if status = "operational"
      then (updateStats s status rt ts).successful_checks = s.successful_checks + 1 ∧
           (updateStats s status rt ts).failed_checks = s.failed_checks
      else (updateStats s status rt ts).successful_checks = s.successful_checks ∧
           (updateStats s status rt ts).failed_checks = s.failed_checks + 1) := by
  by_cases h : status = "operational" <;> by_cases h2 : 0 < rt <;>
    simp [updateStats, h, h2]

theorem updateStats_pct (s : UptimeStats) (status : String) (rt : ℤ) (ts : ℚ) :
    (updateStats s status rt ts).uptime_percentage =
      100 * ((updateStats s status rt ts).successful_checks : ℚ) /
        ((updateStats s status rt ts).total_checks : ℚ) := by
  by_cases h : status = "operational" <;> by_cases h2 : 0 < rt <;>
    simp [updateStats, h, h2] <;> ring

theorem statsCountInv_updateStats (s : UptimeStats) (hs : StatsCountInv s)
    (status : String) (rt : ℤ) (ts : ℚ) : StatsCountInv (updateStats s status rt ts) := by
  have hc := updateStats_counts s status rt ts
  have ht := updateStats_total s status rt ts
  rw [StatsCountInv] at hs ⊢
  by_cases h : status = "operational"
  · rw [if_pos h] at hc
    rw [hc.1, hc.2, ht]
    omega
  · rw [if_neg h] at hc
    rw [hc.1, hc.2, ht]
    omega

theorem statsPctInv_updateStats (s : UptimeStats) (status : String) (rt : ℤ) (ts : ℚ) :
    StatsPctInv (updateStats s status rt ts) := by
  rw [StatsPctInv, if_neg (by rw [updateStats_total]; exact Nat.succ_ne_zero _)]
  exact updateStats_pct s status rt ts

/-- The uptime-stats map after `record_status` is the old map with the
target's entry replaced by the updated statistics. -/
theorem record_status_stats_eq (st : StatusTracker) (name status : String)
    (rt : ℤ) (msg : String) (ts : ℚ) :
    (record_status st name status rt msg ts).uptime_stats =
      setKey st.uptime_stats name
        (updateStats ((lookupKey st.uptime_stats name).getD (freshStats name status ts))
          status rt ts) := by
  by_cases h : 0 < rt <;> simp [record_status, update_uptime_stats, h]

theorem statsInv_getD (st : StatusTracker) (hinv : TrackerInv st)
    (name status : String) (ts : ℚ) :
    StatsCountInv ((lookupKey st.uptime_stats name).getD (freshStats name status ts)) ∧
    StatsPctInv ((lookupKey st.uptime_stats name).getD (freshStats name status ts)) := by
  cases h : lookupKey st.uptime_stats name with
  | none => simpa using statsInv_fresh name status ts
  | some s₀ => simpa using hinv name s₀ h

theorem trackerInv_record (st : StatusTracker) (hinv : TrackerInv st)
    (name status : String) (rt : ℤ) (msg : String) (ts : ℚ) :
    TrackerInv (record_status st name status rt msg ts) := by
  intro n s hs
  rw [record_status_stats_eq] at hs
  by_cases hn : n = name
  · subst hn
    rw [lookupKey_setKey_self] at hs
    cases hs
    exact ⟨statsCountInv_updateStats _ (statsInv_getD st hinv n status ts).1 _ _ _,
      statsPctInv_updateStats _ _ _ _⟩
  · rw [lookupKey_setKey_ne _ _ _ _ hn] at hs
    exact hinv n s hs

/-! ## Claim C1 -/

/-- C1: for every target and every `record_status` call on a tracker
whose stats satisfy the counter invariant, the target's `UptimeStats`
satisfies `successful_checks + failed_checks = total_checks` after the
call (as does every other target's), the call increments
`total_checks` by one, and it increments exactly one of
`successful_checks` (when the status is "operational") or
`failed_checks` (otherwise) by one. -/
theorem record_status_counter_invariant (st : StatusTracker)
    (name status : String) (rt : ℤ) (msg : String) (ts : ℚ)
    (hinv : ∀ n s, lookupKey st.uptime_stats n = some s → StatsCountInv s) :
    (∀ n s, lookupKey (record_status st name status rt msg ts).uptime_stats n = some s →
      s.successful_checks + s.failed_checks = s.total_checks) ∧
    ∃ s', lookupKey (record_status st name status rt msg ts).uptime_stats name = some s' ∧
      s'.total_checks =
        ((lookupKey st.uptime_stats name).getD (freshStats name status ts)).total_checks + 1 ∧
      (if status = "operational"
        then s'.successful_checks =
              ((lookupKey st.uptime_stats name).getD (freshStats name status ts)).successful_checks + 1 ∧
            s'.failed_checks =
              ((lookupKey st.uptime_stats name).getD (freshStats name status ts)).failed_checks
        else s'.successful_checks =
              ((lookupKey st.uptime_stats name).getD (freshStats name status ts)).successful_checks ∧
            s'.failed_checks =
              ((lookupKey st.uptime_stats name).getD (freshStats name status ts)).failed_checks + 1) := by
  constructor
  · intro n s hs
    rw [record_status_stats_eq] at hs
    by_cases hn : n = name
    · subst hn
      rw [lookupKey_setKey_self] at hs
      cases hs
      have hold : StatsCountInv ((lookupKey st.uptime_stats n).getD (freshStats n status ts)) := by
        cases h : lookupKey st.uptime_stats n with
        | none => simpa using (statsInv_fresh n status ts).1
        | some s₀ => simpa using hinv n s₀ h
      exact statsCountInv_updateStats _ hold _ _ _
    · rw [lookupKey_setKey_ne _ _ _ _ hn] at hs
      exact hinv n s hs
  · refine ⟨_, by rw [record_status_stats_eq]; exact lookupKey_setKey_self _ _ _, ?_, ?_⟩
    · exact updateStats_total _ _ _ _
    · exact updateStats_counts _ _ _ _

/-- C1 witness: the invariant hypothesis holds for the empty tracker
(no stats recorded yet), and the theorem applies to a concrete
`record_status` call on it. -/
theorem record_status_counter_invariant_witness :
    (∀ n s, lookupKey (Sato.emptyTracker).uptime_stats n = some s → StatsCountInv s) ∧
    ((∀ n s, lookupKey (record_status emptyTracker "api" "operational" 42 "" 1000).uptime_stats n = some s →
      s.successful_checks + s.failed_checks = s.total_checks) ∧
    ∃ s', lookupKey (record_status emptyTracker "api" "operational" 42 "" 1000).uptime_stats "api" = some s' ∧
      s'.total_checks =
        ((lookupKey emptyTracker.uptime_stats "api").getD (freshStats "api" "operational" 1000)).total_checks + 1 ∧
      (if "operational" = "operational"
        then s'.successful_checks =
              ((lookupKey emptyTracker.uptime_stats "api").getD (freshStats "api" "operational" 1000)).successful_checks + 1 ∧
            s'.failed_checks =
              ((lookupKey emptyTracker.uptime_stats "api").getD (freshStats "api" "operational" 1000)).failed_checks
        else s'.successful_checks =
              ((lookupKey emptyTracker.uptime_stats "api").getD (freshStats "api" "operational" 1000)).successful_checks ∧
            s'.failed_checks =
              ((lookupKey emptyTracker.uptime_stats "api").getD (freshStats "api" "operational" 1000)).failed_checks + 1)) :=
  ⟨fun n s hs => by simp [emptyTracker, lookupKey] at hs,
   record_status_counter_invariant emptyTracker "api" "operational" 42 "" 1000
     (fun n s hs => by simp [emptyTracker, lookupKey] at hs)⟩

/-! ## Claim C7 -/

/-- C7: on any tracker satisfying the stats invariants (established at
the empty tracker and preserved by every `record_status` call, as the
first conjunct shows), every target with recorded stats has
`uptime_percentage = 100 * successful_checks / total_checks` (or 0 when
`total_checks = 0`), and the percentage lies in [0, 100]. -/
theorem uptime_percentage_formula_and_bounds (st : StatusTracker) (hinv : TrackerInv st) :
    (∀ name status rt msg ts, TrackerInv (record_status st name status rt msg ts)) ∧
    ∀ name s, lookupKey st.uptime_stats name = some s →
      s.uptime_percentage =
        (if s.total_checks = 0 then 0
         else 100 * (s.successful_checks : ℚ) / (s.total_checks : ℚ)) ∧
      0 ≤ s.uptime_percentage ∧ s.uptime_percentage ≤ 100 := by
  refine ⟨fun name status rt msg ts => trackerInv_record st hinv name status rt msg ts, ?_⟩
  intro name s hs
  obtain ⟨hcount, hpct⟩ := hinv name s hs
  refine ⟨hpct, ?_, ?_⟩
  · rw [hpct]
    by_cases h : s.total_checks = 0
    · simp [h]
    · rw [if_neg h]
      positivity
  · rw [hpct]
    by_cases h : s.total_checks = 0
    · simp [h]
    · rw [if_neg h]
      have htpos : (0 : ℚ) < (s.total_checks : ℚ) := by
        exact_mod_cast Nat.pos_of_ne_zero h
      rw [div_le_iff₀ htpos]
      have hle : (s.successful_checks : ℚ) ≤ (s.total_checks : ℚ) := by
        have : s.successful_checks ≤ s.total_checks := by
          rw [StatsCountInv] at hcount
          omega
        exact_mod_cast this
      nlinarith

/-- C7 witness: `sampleTracker` (3 checks, 2 successes, percentage
200/3) satisfies the invariants, and the theorem applies to it. -/
theorem uptime_percentage_formula_and_bounds_witness :
    TrackerInv sampleTracker ∧
    ((∀ name status rt msg ts, TrackerInv (record_status sampleTracker name status rt msg ts)) ∧
    ∀ name s, lookupKey sampleTracker.uptime_stats name = some s →
      s.uptime_percentage =
        (if s.total_checks = 0 then 0
         else 100 * (s.successful_checks : ℚ) / (s.total_checks : ℚ)) ∧
      0 ≤ s.uptime_percentage ∧ s.uptime_percentage ≤ 100) := by
  have hinv : TrackerInv sampleTracker := by
    intro name s hs
    simp only [sampleTracker, lookupKey] at hs
    by_cases h : "api" = name
    · rw [if_pos h] at hs
      cases hs
      constructor
      · simp [StatsCountInv, sampleStats]
      · rw [StatsPctInv, sampleStats]
        norm_num
    · rw [if_neg h] at hs
      cases hs
  exact ⟨hinv, uptime_percentage_formula_and_bounds _ hinv⟩

/-! ## Claim C10 -/

/-- C10 counterexample: recording a "degraded" check does increment
`failed_checks`, but it does not always lower `uptime_percentage` —
for a target whose checks have all failed the percentage is 0 and
stays 0.  Two "degraded" recordings on a fresh tracker leave the
percentage unchanged at 0 while `failed_checks` grows to 2. -/
theorem degraded_lowers_percentage_counterexample :
    (get_uptime_stats (record_status emptyTracker "api" "degraded" 0 "" 100)
      "api").map UptimeStats.uptime_percentage = some 0 ∧
    (get_uptime_stats (record_status (record_status emptyTracker "api" "degraded" 0 "" 100)
      "api" "degraded" 0 "" 200) "api").map UptimeStats.uptime_percentage = some 0 ∧
    (get_uptime_stats (record_status (record_status emptyTracker "api" "degraded" 0 "" 100)
      "api" "degraded" 0 "" 200) "api").map UptimeStats.failed_checks = some 2 := by
  refine ⟨?_, ?_, ?_⟩ <;>
    simp [get_uptime_stats, record_status, update_uptime_stats, updateStats, freshStats,
      emptyTracker, lookupKey, setKey, pushLimited, takeLast]

/-- C10 amended: for every `record_status` call on a tracker satisfying
the stats invariants, only the exact status "operational" increments
`successful_checks`; every other status (including "degraded")
increments `failed_checks`, leaves `successful_checks` unchanged, and
never raises `uptime_percentage`, lowering it strictly whenever the
target had at least one successful check. -/
theorem non_operational_counts_as_failure (st : StatusTracker) (hinv : TrackerInv st)
    (name status : String) (hstatus : status ≠ "operational")
    (rt : ℤ) (msg : String) (ts : ℚ) :
    ∃ s', lookupKey (record_status st name status rt msg ts).uptime_stats name = some s' ∧
      s'.failed_checks =
        ((lookupKey st.uptime_stats name).getD (freshStats name status ts)).failed_checks + 1 ∧
      s'.successful_checks =
        ((lookupKey st.uptime_stats name).getD (freshStats name status ts)).successful_checks ∧
      s'.uptime_percentage ≤
        ((lookupKey st.uptime_stats name).getD (freshStats name status ts)).uptime_percentage ∧
      (0 < ((lookupKey st.uptime_stats name).getD (freshStats name status ts)).successful_checks →
        s'.uptime_percentage <
          ((lookupKey st.uptime_stats name).getD (freshStats name status ts)).uptime_percentage) := by
  set old := (lookupKey st.uptime_stats name).getD (freshStats name status ts) with hold
  have hoi : StatsCountInv old ∧ StatsPctInv old := statsInv_getD st hinv name status ts
  have hc := updateStats_counts old status rt ts
  rw [if_neg hstatus] at hc
  have ht := updateStats_total old status rt ts
  have hp := updateStats_pct old status rt ts
  refine ⟨_, by rw [record_status_stats_eq]; exact lookupKey_setKey_self _ _ _,
    hc.2, hc.1, ?_, ?_⟩
  · -- the percentage never goes up
    rw [hp, hc.1, ht, hoi.2]
    have hci := hoi.1
    rw [StatsCountInv] at hci
    by_cases h0 : old.successful_checks = 0
    · simp [h0]
    · rw [if_neg (by omega : ¬ old.total_checks = 0)]
      have htq : (0:ℚ) < (old.total_checks : ℚ) := by
        exact_mod_cast (by omega : 0 < old.total_checks)
      apply div_le_div_of_nonneg_left (by positivity) htq
      push_cast
      linarith
  · intro hpos
    rw [hp, hc.1, ht, hoi.2]
    have hci := hoi.1
    rw [StatsCountInv] at hci
    have htpos : 0 < old.total_checks := by omega
    rw [if_neg (by omega : ¬ old.total_checks = 0)]
    apply div_lt_div_of_pos_left
    · have : (0:ℚ) < (old.successful_checks : ℚ) := by exact_mod_cast hpos
      linarith
    · exact_mod_cast htpos
    · push_cast
      linarith

/-- C10 amended witness: applying the amended theorem to
`sampleTracker` (2 successes out of 3) with a "degraded" recording. -/
theorem non_operational_counts_as_failure_witness :
    TrackerInv sampleTracker ∧ ("degraded" : String) ≠ "operational" ∧
    ∃ s', lookupKey (record_status sampleTracker "api" "degraded" 7 "" 60).uptime_stats
        "api" = some s' ∧
      s'.failed_checks =
        ((lookupKey sampleTracker.uptime_stats "api").getD (freshStats "api" "degraded" 60)).failed_checks + 1 ∧
      s'.successful_checks =
        ((lookupKey sampleTracker.uptime_stats "api").getD (freshStats "api" "degraded" 60)).successful_checks ∧
      s'.uptime_percentage ≤
        ((lookupKey sampleTracker.uptime_stats "api").getD (freshStats "api" "degraded" 60)).uptime_percentage ∧
      (0 < ((lookupKey sampleTracker.uptime_stats "api").getD (freshStats "api" "degraded" 60)).successful_checks →
        s'.uptime_percentage <
          ((lookupKey sampleTracker.uptime_stats "api").getD (freshStats "api" "degraded" 60)).uptime_percentage) := by
  have hinv : TrackerInv sampleTracker := by
    intro name s hs
    simp only [sampleTracker, lookupKey] at hs
    by_cases h : "api" = name
    · rw [if_pos h] at hs
      cases hs
      constructor
      · simp [StatsCountInv, sampleStats]
      · rw [StatsPctInv, sampleStats]
        norm_num
    · rw [if_neg h] at hs
      cases hs
  exact ⟨hinv, by simp,
    non_operational_counts_as_failure sampleTracker hinv "api" "degraded" (by simp) 7 "" 60⟩

/-! ## Claim C9 -/

/-- C9: `cleanup_old_events` is idempotent — running it twice at the
same query time with no intervening recordings retains exactly the
events and response-time entries a single run retains. -/
theorem cleanup_old_events_idempotent (st : StatusTracker) (now : ℚ) :
    cleanup_old_events (cleanup_old_events st now) now = cleanup_old_events st now := by
  cases st with
  | mk retention events rts stats =>
    simp only [cleanup_old_events, List.map_map]
    refine congrArg₂ (fun a b => StatusTracker.mk retention a b stats) ?_ ?_
    · rw [filter_takeLast_filter, takeLast_idem]
    · apply List.map_congr_left
      intro nt _
      simp only [Function.comp_apply]
      rw [filter_takeLast_filter, takeLast_idem]

/-! ## Claim C4 -/

/-- C4: round-trip persistence — saving a tracker and loading the
written document into a fresh tracker yields, for every target that
had stats before the save, exactly the same `get_uptime_stats` result.
(The tracker's stats map, being a model of a Python dict, has one
entry per key.) -/
theorem save_load_round_trip (st : StatusTracker) (now : ℚ) (name : String)
    (hkeys : (st.uptime_stats.map Prod.fst).Nodup) (s : UptimeStats)
    (hbefore : get_uptime_stats st name = some s) :
    get_uptime_stats (load_history emptyTracker (save_history st now).2) name = some s := by
  rw [get_uptime_stats] at hbefore ⊢
  have h1 : (load_history emptyTracker (save_history st now).2).uptime_stats =
      (save_history st now).2.uptime_stats.foldl
        (fun m (kv : String × UptimeStats) => setKey m kv.1 kv.2)
        emptyTracker.uptime_stats := by
    simp [load_history]
  have h2 : (save_history st now).2.uptime_stats = st.uptime_stats := by
    simp [save_history, cleanup_old_events]
  rw [h1, h2, lookupKey_foldl_setKey _ _ _ hkeys, hbefore]
  rfl

/-- C4 witness: the round trip applied to `sampleTracker`. -/
theorem save_load_round_trip_witness :
    ((sampleTracker.uptime_stats.map Prod.fst).Nodup ∧
      get_uptime_stats sampleTracker "api" = some sampleStats) ∧
    get_uptime_stats (load_history emptyTracker (save_history sampleTracker 99999).2)
      "api" = some sampleStats :=
  ⟨⟨by simp [sampleTracker], rfl⟩,
   save_load_round_trip sampleTracker 99999 "api" (by simp [sampleTracker]) sampleStats rfl⟩

/-! ## String prefix lemmas for the message categories -/

theorem listLeads_append {α : Type} [DecidableEq α] (as bs : List α) :
    listLeads as (as ++ bs) = true := by
  induction as with
  | nil => rfl
  | cons a as ih => simp [listLeads, ih]

theorem listLeads_extend {α : Type} [DecidableEq α] (pat xs ys : List α)
    (h : listLeads pat xs = true) : listLeads pat (xs ++ ys) = true := by
  induction pat generalizing xs with
  | nil => rfl
  | cons p ps ih =>
    cases xs with
    | nil => exact absurd h (by simp [listLeads])
    | cons x xs =>
      simp only [listLeads, Bool.and_eq_true, decide_eq_true_eq] at h
      simp only [List.cons_append, listLeads, Bool.and_eq_true, decide_eq_true_eq]
      exact ⟨h.1, ih xs h.2⟩

theorem strLeads_append (c rest : String) : strLeads (c ++ rest) c = true := by
  rw [strLeads]
  simp only [String.toList, String.data_append]
  exact listLeads_append _ _

theorem strLeads_append_left (s t c : String) (h : strLeads s c = true) :
    strLeads (s ++ t) c = true := by
  rw [strLeads] at h ⊢
  simp only [String.toList, String.data_append] at h ⊢
  exact listLeads_extend _ _ _ h

theorem categorizedMessage_base (c rest : String) (h : c ∈ failureCategories) :
    categorizedMessage (c ++ rest) = true := by
  rw [categorizedMessage]
  exact List.any_eq_true.mpr ⟨c, h, strLeads_append c rest⟩

theorem categorizedMessage_extend (s t : String) (h : categorizedMessage s = true) :
    categorizedMessage (s ++ t) = true := by
  rw [categorizedMessage] at h ⊢
  obtain ⟨c, hc, hlead⟩ := List.any_eq_true.mp h
  exact List.any_eq_true.mpr ⟨c, hc, strLeads_append_left _ _ _ hlead⟩

theorem categorizedMessage_self (c : String) (h : c ∈ failureCategories) :
    categorizedMessage c = true := by
  have := categorizedMessage_base c "" h
  simpa using this

/-! ## Claim C6 -/

/-- C6: an HTTP check that receives a response (with a readable body)
is healthy exactly when the status code is in the configured
expected-status-codes set and, if an `expected_content` string is
configured, that string occurs in the capped 200-character body read;
and the expected-codes set defaults to
200, 201, 202, 204, 301, 302, 304, 401. -/
theorem check_http_healthy_iff_expected_and_content :
    (∀ (cfg : ServerConfig) (code : ℤ) (body : String) (elapsedMs : ℤ),
      (check_http cfg (.reply code body true) elapsedMs).is_healthy =
        (decide (code ∈ cfg.expected_status_codes) &&
          (!needContentCheck cfg ||
            strContains (String.mk (body.toList.take 200)) (cfg.expected_content.getD "")))) ∧
    (∀ (cfg : ServerConfig) (code : ℤ) (elapsedMs : ℤ),
      (check_http cfg (.httpError code) elapsedMs).is_healthy =
        decide (code ∈ cfg.expected_status_codes)) ∧
    ∀ cfg : ServerConfig, (serverConfigPostInit none cfg).expected_status_codes =
      [200, 201, 202, 204, 301, 302, 304, 401] := by
  refine ⟨?_, fun cfg code elapsedMs => rfl, ?_⟩
  · intro cfg code body elapsedMs
    cases hn : needContentCheck cfg with
    | false => simp [check_http, hn]
    | true =>
      simp only [String.toList]
      cases hc : strContains (String.mk (body.data.take 200)) (cfg.expected_content.getD "") with
      | false => simp [check_http, hn, hc, String.toList]
      | true => simp [check_http, hn, hc, String.toList]
  · intro cfg
    simp [serverConfigPostInit, defaultExpectedCodes]

/-! ## Claim C3 -/

/-- C3: for every configuration of a known check type and every
failure of the underlying probe (timeout, connection refused, DNS
failure, non-matching status, non-zero exit / connect code, generic
exception), `check_server` returns an unhealthy `CheckResult` whose
message is drawn from the fixed failure categories.  That every
`except` branch of the Python code yields a `CheckResult` rather than
an escaping exception is modelled by `check_server` being a total
function over the probe-outcome constructors. -/
theorem check_server_absorbs_probe_failures (cfg : ServerConfig) (env : ProbeEnv)
    (hk : cfg.check_type ∈ knownCheckTypes) (hf : failingProbe cfg env) :
    (check_server cfg env).is_healthy = false ∧
    categorizedMessage (check_server cfg env).message = true := by
  simp only [knownCheckTypes, List.mem_cons, List.not_mem_nil, or_false] at hk
  rcases hk with h | h | h | h
  · -- http
    simp only [failingProbe, h, reduceIte] at hf
    simp only [check_server, h, reduceIte]
    cases out : env.http with
    | reply code body readOk =>
      rw [out] at hf
      have hf' : code ∉ cfg.expected_status_codes := hf
      constructor
      · cases hn : needContentCheck cfg with
        | false => simp [check_http, hn, hf']
        | true =>
          cases readOk with
          | false => simp [check_http, hn, hf']
          | true =>
            simp only [check_http, hn, if_true]
            split <;> simp [hf']
      · cases hn : needContentCheck cfg with
        | false =>
          simp only [check_http, hn, Bool.false_eq_true, if_false]
          exact categorizedMessage_base "HTTP " _ (by simp [failureCategories])
        | true =>
          cases readOk with
          | false =>
            simp only [check_http, hn, if_true]
            exact categorizedMessage_extend _ _
              (categorizedMessage_base "HTTP " _ (by simp [failureCategories]))
          | true =>
            simp only [check_http, hn, if_true]
            split
            · exact categorizedMessage_extend _ _
                (categorizedMessage_base "HTTP " _ (by simp [failureCategories]))
            · exact categorizedMessage_extend _ _
                (categorizedMessage_base "Content missing (HTTP " _ (by simp [failureCategories]))
    | httpError code =>
      rw [out] at hf
      have hf' : code ∉ cfg.expected_status_codes := hf
      exact ⟨by simp [check_http, hf'],
        categorizedMessage_base "HTTP " _ (by simp [failureCategories])⟩
    | urlTimeout =>
      exact ⟨by simp [check_http],
        categorizedMessage_self "Timeout" (by simp [failureCategories])⟩
    | urlConnection =>
      exact ⟨by simp [check_http],
        categorizedMessage_self "Connection failed" (by simp [failureCategories])⟩
    | urlDns =>
      exact ⟨by simp [check_http],
        categorizedMessage_self "DNS failed" (by simp [failureCategories])⟩
    | urlOther =>
      exact ⟨by simp [check_http],
        categorizedMessage_self "Network error" (by simp [failureCategories])⟩
    | otherExc =>
      exact ⟨by simp [check_http],
        categorizedMessage_self "Check failed" (by simp [failureCategories])⟩
  · -- ping
    simp only [failingProbe, h, reduceIte] at hf
    simp only [check_server, h, reduceIte]
    cases out : env.ping with
    | exit returncode stdout stderr =>
      rw [out] at hf
      have hf' : returncode ≠ 0 := hf
      refine ⟨by simp [check_ping, hf'], ?_⟩
      simp only [check_ping, if_neg hf']
      exact categorizedMessage_base "Ping failed: " _ (by simp [failureCategories])
    | timeoutExpired =>
      refine ⟨by simp [check_ping], ?_⟩
      simp only [check_ping]
      exact categorizedMessage_extend _ _
        (categorizedMessage_base "Ping timeout after " _ (by simp [failureCategories]))
    | exc msg =>
      exact ⟨by simp [check_ping],
        categorizedMessage_base "Ping check failed: " _ (by simp [failureCategories])⟩
  · -- tcp
    simp only [failingProbe, h, reduceIte] at hf
    simp only [check_server, h, reduceIte]
    cases out : env.tcp with
    | connectRes errorCode received =>
      rw [out] at hf
      have hf' : errorCode ≠ 0 := hf
      refine ⟨by simp [check_tcp, hf'], ?_⟩
      simp only [check_tcp, if_neg hf']
      exact categorizedMessage_extend _ _ (categorizedMessage_extend _ _
        (categorizedMessage_extend _ _ (categorizedMessage_extend _ _
          (categorizedMessage_extend _ _
            (categorizedMessage_base "TCP connection failed to " _
              (by simp [failureCategories]))))))
    | sockTimeout =>
      refine ⟨by simp [check_tcp], ?_⟩
      simp only [check_tcp]
      exact categorizedMessage_extend _ _ (categorizedMessage_extend _ _
        (categorizedMessage_base "TCP connection timeout to " _
          (by simp [failureCategories])))
    | exc msg =>
      exact ⟨by simp [check_tcp],
        categorizedMessage_base "TCP check failed: " _ (by simp [failureCategories])⟩
  · -- custom
    simp only [failingProbe, h, reduceIte] at hf
    simp only [check_server, h, reduceIte]
    have hcmd : (cfg.custom_command.getD "") ≠ "" := hf.1
    have hout := hf.2
    cases out : env.custom with
    | exit returncode stdout stderr =>
      rw [out] at hout
      have hout' : returncode ≠ 0 := hout
      refine ⟨by simp [check_custom, hcmd, hout'], ?_⟩
      simp only [check_custom, if_neg (by simpa using hcmd), if_neg hout']
      exact categorizedMessage_extend _ _
        (categorizedMessage_base "Custom check failed (exit " _
          (by simp [failureCategories]))
    | timeoutExpired =>
      refine ⟨by simp [check_custom, hcmd], ?_⟩
      simp only [check_custom, if_neg (by simpa using hcmd)]
      exact categorizedMessage_extend _ _
        (categorizedMessage_base "Custom check timeout after " _
          (by simp [failureCategories]))
    | exc msg =>
      refine ⟨by simp [check_custom, hcmd], ?_⟩
      simp only [check_custom, if_neg (by simpa using hcmd)]
      exact categorizedMessage_base "Custom check error: " _ (by simp [failureCategories])

/-- C3 witness: a concrete HTTP target whose probe times out yields an
unhealthy, categorized result. -/
theorem check_server_absorbs_probe_failures_witness :
    (({ name := "api", host := "example.com" } : ServerConfig).check_type ∈ knownCheckTypes ∧
      failingProbe { name := "api", host := "example.com" }
        { http := .urlTimeout, ping := .timeoutExpired, tcp := .sockTimeout,
          custom := .timeoutExpired, timeout := 5, elapsedMs := 3000 }) ∧
    ((check_server { name := "api", host := "example.com" }
        { http := .urlTimeout, ping := .timeoutExpired, tcp := .sockTimeout,
          custom := .timeoutExpired, timeout := 5, elapsedMs := 3000 }).is_healthy = false ∧
      categorizedMessage (check_server { name := "api", host := "example.com" }
        { http := .urlTimeout, ping := .timeoutExpired, tcp := .sockTimeout,
          custom := .timeoutExpired, timeout := 5, elapsedMs := 3000 }).message = true) :=
  ⟨⟨by simp [knownCheckTypes], by simp [failingProbe]⟩,
   check_server_absorbs_probe_failures _ _ (by simp [knownCheckTypes]) (by simp [failingProbe])⟩

/-! ## Claim C8 -/

/-- C8: for every start time, a target whose events in the trailing
1-hour window are operational at `t0`, down at `t0 + 60` s and
operational at `t0 + 300` s has `calculate_downtime` equal to exactly
4.0 minutes (the down period from `t0 + 60` to `t0 + 300`). -/
theorem calculate_downtime_scenario (t0 : ℚ) :
    calculate_downtime (downtimeTracker t0) "api" 1 (t0 + 300) = 4 := by
  have h1 : t0 + 300 - (1:ℚ) * 3600 ≤ t0 := by linarith
  have h2 : t0 + 300 - (1:ℚ) * 3600 ≤ t0 + 60 := by linarith
  have h3 : t0 + 300 - (1:ℚ) * 3600 ≤ t0 + 300 := by linarith
  have h4 : t0 ≤ t0 + 60 := by linarith
  have h5 : t0 + 60 ≤ t0 + 300 := by linarith
  simp only [calculate_downtime, get_status_changes, downtimeTracker, downtimeEvents,
    Nat.cast_one, List.filter_cons, List.filter_nil, sortByTs, insertTs, collapseChanges,
    downtimeWalk]
  simp only [h1, h2, h3, h4, h5]
  norm_num [sortByTs, insertTs, collapseChanges, downtimeWalk, h4, h5]
  ring_nf
  simp

/-! ## Claim C2 -/

/-- C2 counterexample: five alternating status changes for one target
at 120 s intervals — all within a 10-minute window — submitted to the
smart-rule pipeline with the default 300 s cooldown.  The 1st change is
notified, the 2nd is suppressed by cooldown, the 3rd by the
duplicate-meaningful-status rule, the 4th is NOTIFIED (not
suppressed), and the 5th is suppressed by cooldown; the flap-detection
veto never fires, because only accepted changes enter the
flap-detection history and the cooldown keeps that history below the
`> 3` threshold.  This contradicts the claim that the 4th and 5th
changes are suppressed by flap detection while the earlier ones are
not suppressed. -/
theorem flap_detection_scenario_counterexample :
    (runChanges emptyNotifState (alternatingChanges "svc" 1000)).2 =
      [.accept, .vetoCooldown, .vetoMeaningful, .accept, .vetoCooldown] ∧
    NotifyDecision.vetoFlap ∉ (runChanges emptyNotifState (alternatingChanges "svc" 1000)).2 := by
  decide

/-- C2 amended: given 5 alternating status changes for one target at
120 s intervals within a 10-minute window (starting at any wall-clock
time at least one cooldown period after epoch), the changes that are
suppressed are the 2nd and 5th (cooldown) and the 3rd
(duplicate-meaningful-status); the 1st and 4th are notified; flap
detection suppresses none of them. -/
theorem alternating_changes_decisions (t : ℤ) (h : 300 ≤ t) :
    (runChanges emptyNotifState (alternatingChanges "svc" t)).2 =
      [.accept, .vetoCooldown, .vetoMeaningful, .accept, .vetoCooldown] := by
  have h1 : ¬ (t < 300) := by omega
  simp [runChanges, alternatingChanges, should_notify_smart, is_flapping,
    is_in_cooldown, record_status_change, emptyNotifState, lookupKey, setKey, h1,
    add_sub_cancel_left, add_sub_add_left_eq_sub]

/-- C2 amended witness: the amended theorem applied at start time
1000. -/
theorem alternating_changes_decisions_witness :
    (300 : ℤ) ≤ 1000 ∧
    (runChanges emptyNotifState (alternatingChanges "svc" 1000)).2 =
      [.accept, .vetoCooldown, .vetoMeaningful, .accept, .vetoCooldown] :=
  ⟨by decide, alternating_changes_decisions 1000 (by decide)⟩

/-! ## Claim C5 -/

/-- C5 counterexample: a local, restart-enabled target with exactly 5
failures recorded in the trailing hour (4 prior ones plus the current
one) and no prior restart attempts.  The claim requires
`should_attempt_restart` to return false ("fewer than 5 failures"),
but the code only vetoes at more than 5 failures, so the restart is
attempted. -/
theorem restart_with_five_failures_counterexample :
    (handle_service_failure sampleHealState sampleLocalServer 4000).2 = true ∧
    ((lookupKey (handle_service_failure sampleHealState
        sampleLocalServer 4000).1.failure_timestamps "api").getD []).length = 5 := by
  decide

theorem should_attempt_restart_imp (st : HealState) (server : ServerConfig)
    (h : should_attempt_restart st server = true) :
    st.auto_restart_enabled = true ∧ st.maintenance_mode = false ∧
    is_external_service server = false ∧
    ((lookupKey st.failure_timestamps server.name).getD []).length ≤ 5 ∧
    (lookupKey st.retry_counts server.name).getD 0 < 3 := by
  rw [should_attempt_restart] at h
  split_ifs at h with h1 h2 h3 h4 h5
  any_goals simp at h
  simp only [Bool.or_eq_true, Bool.not_eq_true', not_or] at h1
  refine ⟨?_, ?_, ?_, ?_, ?_⟩
  · have := h1.1
    simpa using this
  · have := h1.2
    simpa using this
  · simpa using h2
  · omega
  · omega

/-- Every failure timestamp retained by `handle_service_failure` lies
within the trailing hour. -/
theorem handle_failure_trailing (st : HealState) (server : ServerConfig) (now : ℤ) :
    ∀ ts ∈ (lookupKey (handle_service_failure st server now).1.failure_timestamps
      server.name).getD [], now - ts < 3600 := by
  intro ts hts
  simp only [handle_service_failure] at hts
  rw [lookupKey_setKey_self] at hts
  simp only [Option.getD_some] at hts
  exact of_decide_eq_true (List.mem_filter.mp hts).2

/-- C5 amended: an auto-restart is attempted by
`handle_service_failure` only when auto-restart is globally enabled,
maintenance mode is off, the target is not classified external, at
most 5 failures are recorded for it in the trailing hour (every
retained failure timestamp lies within the hour), and fewer than 3
restart attempts have been made since the last success. -/
theorem restart_only_when_eligible (st : HealState) (server : ServerConfig) (now : ℤ)
    (h : (handle_service_failure st server now).2 = true) :
    st.auto_restart_enabled = true ∧ st.maintenance_mode = false ∧
    is_external_service server = false ∧
    ((lookupKey (handle_service_failure st server now).1.failure_timestamps
      server.name).getD []).length ≤ 5 ∧
    (∀ ts ∈ (lookupKey (handle_service_failure st server now).1.failure_timestamps
      server.name).getD [], now - ts < 3600) ∧
    (lookupKey st.retry_counts server.name).getD 0 < 3 := by
  have hmain : should_attempt_restart ((handle_service_failure st server now).1)
      server = true := h
  obtain ⟨he, hm, hx, hlen, hretry2⟩ := should_attempt_restart_imp _ _ hmain
  have hae : (handle_service_failure st server now).1.auto_restart_enabled =
      st.auto_restart_enabled := by
    simp only [handle_service_failure]
    split <;> rfl
  have hmm : (handle_service_failure st server now).1.maintenance_mode =
      st.maintenance_mode := by
    simp only [handle_service_failure]
    split <;> rfl
  rw [hae] at he
  rw [hmm] at hm
  refine ⟨he, hm, hx, hlen, handle_failure_trailing st server now, ?_⟩
  rcases hr : lookupKey st.retry_counts server.name with _ | r
  · simp
  · have hrc : (handle_service_failure st server now).1.retry_counts =
        st.retry_counts := by
      simp [handle_service_failure, hr]
    rw [hrc, hr] at hretry2
    simpa using hretry2

/-- C5 amended witness: the amended theorem applied to a concrete
failure on `sampleHealState` / `sampleLocalServer`. -/
theorem restart_only_when_eligible_witness :
    (handle_service_failure sampleHealState sampleLocalServer 4000).2 = true ∧
    (sampleHealState.auto_restart_enabled = true ∧
     sampleHealState.maintenance_mode = false ∧
     is_external_service sampleLocalServer = false ∧
     ((lookupKey (handle_service_failure sampleHealState
        sampleLocalServer 4000).1.failure_timestamps
        sampleLocalServer.name).getD []).length ≤ 5 ∧
     (∀ ts ∈ (lookupKey (handle_service_failure sampleHealState
        sampleLocalServer 4000).1.failure_timestamps
        sampleLocalServer.name).getD [], 4000 - ts < 3600) ∧
     (lookupKey sampleHealState.retry_counts sampleLocalServer.name).getD 0 < 3) :=
  ⟨by decide,
   restart_only_when_eligible sampleHealState sampleLocalServer 4000 (by decide)⟩

end Sato
